import Mathlib

/-
Verification of the gasex library (diff.py and sol.py) against its
natural-language specification.  The Python source is shallowly embedded:
pure numeric code becomes functions over the real numbers, Python runtime
failures (an unbound local variable at a return statement, list indexing
out of range, exceeding the recursion limit) become an explicit error
value of type Except PyError, and the external gsw thermodynamic provider
(CT_from_pt, rho), which is out of scope per the spec, is passed in as an
explicit parameter so every theorem holds for an arbitrary provider.
-/

namespace Gasex

noncomputable section

/-- Runtime failures of the embedded Python code.  UnboundLocalError models
the failure of `return D` when no branch assigned D; IndexError models a
list subscript out of range; RecursionError models exhaustion of the
interpreter recursion limit; UnsupportedGas models the explicit
unsupported-gas error that the specification demands (the source never
constructs it, which is exactly what claim C5 is about). -/
inductive PyError where
  | UnboundLocalError : PyError
  | IndexError : PyError
  | RecursionError : PyError
  | UnsupportedGas : PyError
deriving DecidableEq

/-- External thermodynamic provider (the gsw library), out of scope for the
core per the spec; modelled as an arbitrary pair of functions. -/
structure GswProvider where
  CT_from_pt : ℝ → ℝ → ℝ
  rho : ℝ → ℝ → ℝ → ℝ

/-- Universal gas constant as set in diff.py: R = 8.314510. -/
def R : ℝ := 8.314510

/-- The AEa_dict literal of diff.py: per-gas pre-exponential factor A and
activation energy Ea, in source order. -/
def AEa_list : List (String × ℝ × ℝ) :=
  [("O2", 4.286e-6, 18700),
   ("He", 0.8180e-6, 11700),
   ("Ne", 1.6080e-6, 14840),
   ("Ar", 2.227e-6, 16680),
   ("Kr", 6.3930e-6, 20200),
   ("Xe", 9.0070e-6, 21610),
   ("N2", 3.4120e-6, 18500),
   ("CH4", 3.0470e-6, 18360),
   ("CO2", 5.0190e-6, 19510),
   ("H2", 3.3380e-6, 16060)]

/-- Dictionary lookup in AEa_dict, modelling both the membership test
`gas in AEa_dict.keys()` (isSome) and the access `AEa_dict[gas]`. -/
def AEa_dict (gas : String) : Option (ℝ × ℝ) :=
  (AEa_list.find? (fun e => e.1 == gas)).map (fun e => e.2)

/-- The key set of AEa_dict, in source order. -/
def AEa_keys : List String :=
  ["O2", "He", "Ne", "Ar", "Kr", "Xe", "N2", "CH4", "CO2", "H2"]

/-- visc of diff.py: kinematic viscosity of seawater, delegating density
and Conservative Temperature to the external provider g. -/
def visc (g : GswProvider) (SP pt : ℝ) : ℝ :=
  let SA := SP * 35.16504 / 35
  let CT := g.CT_from_pt SA pt
  let dens := g.rho SA CT 0
  1e-4 * (17.91 - 0.5381 * pt + 0.00694 * pt ^ 2 + 0.02305 * SP) / dens

mutual

/-- diff of diff.py, with an explicit fuel parameter modelling the Python
recursion limit: the branch structure is exactly the source if/elif, with
fall-through (no branch taken) producing the UnboundLocalError that the
bare `return D` raises. -/
def diffF (g : GswProvider) : Nat → ℝ → ℝ → String → Except PyError ℝ
  | 0, _, _, _ => Except.error PyError.RecursionError
  | n + 1, SP, pt, gas =>
    match AEa_dict gas with
    | some AEa =>
      Except.ok (AEa.1 * Real.exp (-AEa.2 / (R * (pt + 273.15))) *
        (1 - 0.049 * SP / 35.5))
    | none =>
      if gas = "CO2" then
        (schmidtF g n SP pt "CO2").map (fun sc => visc g SP pt / sc)
      else
        Except.error PyError.UnboundLocalError

/-- schmidt of diff.py with the same fuel discipline: Sc = visc / diff. -/
def schmidtF (g : GswProvider) : Nat → ℝ → ℝ → String → Except PyError ℝ
  | 0, _, _, _ => Except.error PyError.RecursionError
  | n + 1, SP, pt, gas =>
    (diffF g n SP pt gas).map (fun d => visc g SP pt / d)

end

/-- The CPython default recursion limit, the fuel budget a fresh call gets. -/
def recursionLimit : Nat := 1000

/-- Top-level diff of diff.py: a fresh call with the full fuel budget. -/
def diff (g : GswProvider) (SP pt : ℝ) (gas : String) : Except PyError ℝ :=
  diffF g recursionLimit SP pt gas

/-- Top-level schmidt of diff.py: a fresh call with the full fuel budget. -/
def schmidt (g : GswProvider) (SP pt : ℝ) (gas : String) : Except PyError ℝ :=
  schmidtF g recursionLimit SP pt gas

/-- Concrete example provider used in closed witness statements. -/
def gEx : GswProvider :=
  { CT_from_pt := fun _ pt => pt, rho := fun _ _ _ => 1025 }

/-- One-step unfolding of diffF at positive fuel. -/
lemma diffF_succ (g : GswProvider) (n : Nat) (SP pt : ℝ) (gas : String) :
    diffF g (n + 1) SP pt gas =
      match AEa_dict gas with
      | some AEa =>
        Except.ok (AEa.1 * Real.exp (-AEa.2 / (R * (pt + 273.15))) *
          (1 - 0.049 * SP / 35.5))
      | none =>
        if gas = "CO2" then
          (schmidtF g n SP pt "CO2").map (fun sc => visc g SP pt / sc)
        else
          Except.error PyError.UnboundLocalError := by
  rw [diffF]

/-- One-step unfolding of schmidtF at positive fuel. -/
lemma schmidtF_succ (g : GswProvider) (n : Nat) (SP pt : ℝ) (gas : String) :
    schmidtF g (n + 1) SP pt gas =
      (diffF g n SP pt gas).map (fun d => visc g SP pt / d) := by
  rw [schmidtF]

/-- When the gas has a row in the table, diff returns the Arrhenius fit
with the linear salinity correction. -/
lemma diff_of_mem (g : GswProvider) (SP pt : ℝ) (gas : String) (A Ea : ℝ)
    (h : AEa_dict gas = some (A, Ea)) :
    diff g SP pt gas =
      Except.ok (A * Real.exp (-Ea / (R * (pt + 273.15))) *
        (1 - 0.049 * SP / 35.5)) := by
  have : diff g SP pt gas = diffF g (999 + 1) SP pt gas := rfl
  rw [this, diffF_succ, h]

/-- The table keys are exactly AEa_keys. -/
lemma AEa_list_keys : AEa_list.map (fun e => e.1) = AEa_keys := rfl

/-- Lookup misses for any gas outside the key set. -/
lemma AEa_dict_eq_none (gas : String) (h : gas ∉ AEa_keys) :
    AEa_dict gas = none := by
  unfold AEa_dict
  rw [Option.map_eq_none', List.find?_eq_none]
  intro e he hbeq
  apply h
  rw [← AEa_list_keys]
  have : e.1 = gas := by simpa using hbeq
  exact this ▸ List.mem_map_of_mem (fun e => e.1) he

/-- A gas outside the table key set falls through both branches of diff and
fails with the UnboundLocalError of the bare return statement. -/
lemma diff_of_not_mem (g : GswProvider) (SP pt : ℝ) (gas : String)
    (h : gas ∉ AEa_keys) :
    diff g SP pt gas = Except.error PyError.UnboundLocalError := by
  have hco2 : gas ≠ "CO2" := by
    intro hg
    exact h (hg ▸ (by decide : ("CO2" : String) ∈ AEa_keys))
  have : diff g SP pt gas = diffF g (999 + 1) SP pt gas := rfl
  rw [this, diffF_succ, AEa_dict_eq_none gas h, if_neg hco2]

/-- Claim C1, counterexample.  The claim states that diff(SP, pt, "CO2")
never equals the Arrhenius-family expression built from the CO2 row
[5.0190e-6, 19510] of the table.  At SP = 35, pt = 20 the code returns
exactly that expression: the dictionary membership test precedes the CO2
special case, so the CO2 row is taken and the Schmidt-inversion elif is
dead. -/
theorem diff_CO2_claim_false :
    diff gEx 35 20 "CO2" =
      Except.ok (5.0190e-6 * Real.exp (-(19510 : ℝ) / (R * (20 + 273.15))) *
        (1 - 0.049 * 35 / 35.5)) :=
  diff_of_mem gEx 35 20 "CO2" _ _ rfl

/-- Claim C1, amended.  For every provider, salinity and temperature, the
CO2 diffusion coefficient is computed by the Arrhenius branch from the CO2
row of the coefficient table, A exp(-Ea/(R (pt+273.15))) (1 - 0.049 SP/35.5)
with A = 5.0190e-6 and Ea = 19510; the Schmidt-number-inversion branch is
never evaluated for CO2 because the table lookup shadows it. -/
theorem diff_CO2_is_arrhenius (g : GswProvider) (SP pt : ℝ) :
    diff g SP pt "CO2" =
      Except.ok (5.0190e-6 * Real.exp (-(19510 : ℝ) / (R * (pt + 273.15))) *
        (1 - 0.049 * SP / 35.5)) :=
  diff_of_mem g SP pt "CO2" _ _ rfl

/-- Claim C4, counterexample.  The claim states diff(SP, pt, "N2O") is
defined; in the code N2O has no row in AEa_dict and is not the CO2 case,
so the call falls through both branches and fails (the bare return of an
unassigned local). -/
theorem diff_N2O_undefined :
    diff gEx 35 20 "N2O" = Except.error PyError.UnboundLocalError :=
  diff_of_not_mem gEx 35 20 "N2O" (by decide)

/-- Claim C4, amended.  The diffusion coefficient function returns a value
exactly for the ten gases of the coefficient table, O2, He, Ne, Ar, Kr, Xe,
N2, CH4, CO2 and H2; in particular it is not defined for N2O. -/
theorem diff_defined_iff_key (g : GswProvider) (SP pt : ℝ) (gas : String) :
    (∃ v, diff g SP pt gas = Except.ok v) ↔ gas ∈ AEa_keys := by
  constructor
  · rintro ⟨v, hv⟩
    by_contra h
    rw [diff_of_not_mem g SP pt gas h] at hv
    exact absurd hv (by simp)
  · intro h
    fin_cases h <;>
      exact ⟨_, diff_of_mem g SP pt _ _ _ rfl⟩

/-- Claim C5, counterexample.  For the unknown token "Rn" the claim says
diff raises an explicit unsupported-gas error; the code instead fails with
the incidental UnboundLocalError of the unassigned result variable. -/
theorem diff_unknown_not_explicit :
    diff gEx 0 0 "Rn" = Except.error PyError.UnboundLocalError ∧
      diff gEx 0 0 "Rn" ≠ Except.error PyError.UnsupportedGas := by
  have h := diff_of_not_mem gEx 0 0 "Rn" (by decide)
  refine ⟨h, ?_⟩
  rw [h]
  simp

/-- Claim C5, amended.  A gas identifier outside the supported set makes
diff fail with an error rather than silently return a value, but the error
is the UnboundLocalError of the unassigned result variable, not an explicit
unsupported-gas error. -/
theorem diff_unknown_gas_errors (g : GswProvider) (SP pt : ℝ) (gas : String)
    (h : gas ∉ AEa_keys) :
    diff g SP pt gas = Except.error PyError.UnboundLocalError :=
  diff_of_not_mem g SP pt gas h

/-- Witness for the amended claim C5 at the concrete token "Xx". -/
theorem diff_unknown_gas_errors_witness :
    ("Xx" ∉ AEa_keys) ∧
      diff gEx 5 5 "Xx" = Except.error PyError.UnboundLocalError :=
  ⟨by decide, diff_unknown_gas_errors gEx 5 5 "Xx" (by decide)⟩

/-- For CO2, one step of diffF already returns the Arrhenius value, at any
positive fuel: the table branch is taken and no recursive call happens. -/
lemma diffF_CO2 (g : GswProvider) (m : Nat) (SP pt : ℝ) :
    diffF g (m + 1) SP pt "CO2" =
      Except.ok (5.0190e-6 * Real.exp (-(19510 : ℝ) / (R * (pt + 273.15))) *
        (1 - 0.049 * SP / 35.5)) := by
  rw [diffF_succ]
  rfl

/-- Claim C6.  Computing the Schmidt number for CO2 terminates and returns
a value: the top-level schmidt call returns visc divided by the CO2
diffusivity, and the result is already reached with any fuel budget of at
least two frames, independent of the budget, so the mutual dependency
between schmidt and diff produces no infinite recursion for CO2. -/
theorem schmidt_CO2_terminates (g : GswProvider) (SP pt : ℝ) (n : Nat) :
    schmidt g SP pt "CO2" =
      Except.ok (visc g SP pt /
        (5.0190e-6 * Real.exp (-(19510 : ℝ) / (R * (pt + 273.15))) *
          (1 - 0.049 * SP / 35.5))) ∧
    schmidtF g (n + 2) SP pt "CO2" =
      Except.ok (visc g SP pt /
        (5.0190e-6 * Real.exp (-(19510 : ℝ) / (R * (pt + 273.15))) *
          (1 - 0.049 * SP / 35.5))) := by
  constructor
  · show schmidtF g (999 + 1) SP pt "CO2" = _
    rw [schmidtF_succ, show (999 : Nat) = 998 + 1 from rfl, diffF_CO2]
    rfl
  · rw [show n + 2 = (n + 1) + 1 from rfl, schmidtF_succ, diffF_CO2]
    rfl

/-- Every key of the table has a row with a strictly positive
pre-exponential factor. -/
lemma AEa_dict_pos (gas : String) (h : gas ∈ AEa_keys) :
    ∃ A Ea : ℝ, AEa_dict gas = some (A, Ea) ∧ 0 < A := by
  fin_cases h
  · exact ⟨4.286e-6, 18700, rfl, by norm_num⟩
  · exact ⟨0.8180e-6, 11700, rfl, by norm_num⟩
  · exact ⟨1.6080e-6, 14840, rfl, by norm_num⟩
  · exact ⟨2.227e-6, 16680, rfl, by norm_num⟩
  · exact ⟨6.3930e-6, 20200, rfl, by norm_num⟩
  · exact ⟨9.0070e-6, 21610, rfl, by norm_num⟩
  · exact ⟨3.4120e-6, 18500, rfl, by norm_num⟩
  · exact ⟨3.0470e-6, 18360, rfl, by norm_num⟩
  · exact ⟨5.0190e-6, 19510, rfl, by norm_num⟩
  · exact ⟨3.3380e-6, 16060, rfl, by norm_num⟩

/-- The Arrhenius expression with the linear salinity correction is
strictly decreasing in salinity whenever the pre-exponential factor is
positive. -/
lemma arrhenius_strict_anti (A Ea pt SP1 SP2 : ℝ) (hA : 0 < A)
    (h12 : SP1 < SP2) :
    A * Real.exp (-Ea / (R * (pt + 273.15))) * (1 - 0.049 * SP2 / 35.5) <
      A * Real.exp (-Ea / (R * (pt + 273.15))) * (1 - 0.049 * SP1 / 35.5) := by
  have hAE : 0 < A * Real.exp (-Ea / (R * (pt + 273.15))) :=
    mul_pos hA (Real.exp_pos _)
  have h1 : 0.049 * SP1 < 0.049 * SP2 :=
    (mul_lt_mul_left (by norm_num : (0 : ℝ) < 0.049)).mpr h12
  have h2 : 0.049 * SP1 / 35.5 < 0.049 * SP2 / 35.5 :=
    (div_lt_div_iff_of_pos_right (by norm_num : (0 : ℝ) < 35.5)).mpr h1
  have hfac : 1 - 0.049 * SP2 / 35.5 < 1 - 0.049 * SP1 / 35.5 := by linarith
  exact mul_lt_mul_of_pos_left hfac hAE

/-- Claim C9.  For every gas of the Arrhenius table, at fixed temperature
the diffusion coefficient is strictly decreasing in salinity: the
freshwater diffusivity is strictly positive and the salinity correction
factor (1 - 0.049 SP / 35.5) strictly decreases in SP. -/
theorem diff_strict_anti_in_SP (gas : String) (hgas : gas ∈ AEa_keys)
    (g : GswProvider) (pt SP1 SP2 d1 d2 : ℝ) (_h0 : 0 ≤ SP1) (h12 : SP1 < SP2)
    (hd1 : diff g SP1 pt gas = Except.ok d1)
    (hd2 : diff g SP2 pt gas = Except.ok d2) : d2 < d1 := by
  obtain ⟨A, Ea, hdict, hA⟩ := AEa_dict_pos gas hgas
  rw [diff_of_mem g SP1 pt gas A Ea hdict] at hd1
  rw [diff_of_mem g SP2 pt gas A Ea hdict] at hd2
  injection hd1 with hd1
  injection hd2 with hd2
  rw [← hd1, ← hd2]
  exact arrhenius_strict_anti A Ea pt SP1 SP2 hA h12

/-- Witness for claim C9: the O2 diffusivity at pt = 20 drops strictly when
salinity rises from 0 to 35. -/
theorem diff_strict_anti_in_SP_witness :
    4.286e-6 * Real.exp (-(18700 : ℝ) / (R * (20 + 273.15))) *
        (1 - 0.049 * 35 / 35.5) <
      4.286e-6 * Real.exp (-(18700 : ℝ) / (R * (20 + 273.15))) *
        (1 - 0.049 * 0 / 35.5) :=
  diff_strict_anti_in_SP "O2" (by decide) gEx 20 0 35 _ _ le_rfl (by norm_num)
    (diff_of_mem gEx 0 20 "O2" _ _ rfl) (diff_of_mem gEx 35 20 "O2" _ _ rfl)

/-- Python list subscript: l[i] returns the element when in range and
raises IndexError otherwise. -/
def pyIndex (l : List ℝ) (i : Nat) : Except PyError ℝ :=
  match l.get? i with
  | some v => Except.ok v
  | none => Except.error PyError.IndexError

/-- The log-temperature variable of the Hamme and Emerson family,
y = ln((298.15 - t) / (273.15 + t)), used in the solubility theorems to
make explicit which temperature each gas feeds into it. -/
def ylog (t : ℝ) : ℝ := Real.log ((298.15 - t) / (273.15 + t))

/-- Horner evaluation of a coefficient list, lowest order first; used to
state the per-gas polynomial shapes. -/
def polyHorner (cs : List ℝ) (y : ℝ) : ℝ :=
  cs.foldr (fun c acc => c + y * acc) 0

/-- Coefficient list a of O2sol_SP_pt, Garcia and Gordon (1992). -/
def O2sol_a : List ℝ :=
  [5.80871, 3.20291, 4.17887, 5.10006, -9.86643e-2, 3.80369]

/-- Coefficient list b of O2sol_SP_pt. -/
def O2sol_b : List ℝ :=
  [-7.01577e-3, -7.70028e-3, -1.13864e-2, -9.51519e-3]

/-- Coefficient c of O2sol_SP_pt. -/
def O2sol_c : ℝ := -2.75915e-7

/-- O2sol_SP_pt of sol.py: oxygen solubility, log-temperature polynomial
family, with the 1968-scale conversion pt68 = pt * 1.00024 before the log
variable is formed. -/
def O2sol_SP_pt (SP pt : ℝ) : Except PyError ℝ := do
  let x := SP
  let pt68 := pt * 1.00024
  let y := Real.log ((298.15 - pt68) / (273.15 + pt68))
  let a := O2sol_a
  let b := O2sol_b
  let c := O2sol_c
  let lnC := (← pyIndex a 0) + y * ((← pyIndex a 1) + y * ((← pyIndex a 2) +
    y * ((← pyIndex a 3) + y * ((← pyIndex a 4) + (← pyIndex a 5) * y)))) +
    x * ((← pyIndex b 0) + y * ((← pyIndex b 1) + y * ((← pyIndex b 2) +
      (← pyIndex b 3) * y)) + c * x)
  return Real.exp lnC

/-- Coefficient list a of Hesol_SP_pt, Weiss (1971). -/
def Hesol_a : List ℝ := [-167.2178, 216.3442, 139.2032, -22.6202]

/-- Coefficient list b of Hesol_SP_pt. -/
def Hesol_b : List ℝ := [-0.044781, 0.023541, -0.0034266]

/-- Hesol_SP_pt of sol.py: helium solubility, inverse-temperature Weiss
family, converted from mL per kg to umol per kg. -/
def Hesol_SP_pt (SP pt : ℝ) : Except PyError ℝ := do
  let x := SP
  let pt68 := pt * 1.00024
  let y := pt68 + 273.15
  let y_100 := y * 1e-2
  let a := Hesol_a
  let b := Hesol_b
  let Hesol_mL := Real.exp ((← pyIndex a 0) + (← pyIndex a 1) * 100 / y +
    (← pyIndex a 2) * Real.log y_100 + (← pyIndex a 3) * y_100 +
    x * ((← pyIndex b 0) + y_100 * ((← pyIndex b 1) + (← pyIndex b 2) * y_100)))
  return Hesol_mL * 4.455817671505537e1

/-- Coefficient list a of Nesol_SP_pt, Hamme and Emerson (2004): three
entries only. -/
def Nesol_a : List ℝ := [2.18156, 1.29108, 2.12504]

/-- Coefficient list b of Nesol_SP_pt: two entries only. -/
def Nesol_b : List ℝ := [-5.94737e-3, -5.13896e-3]

/-- Nesol_SP_pt of sol.py: neon solubility in nmol per kg scaled to match
the others by 1e3, log-temperature family, ITS-90 temperature used
directly. -/
def Nesol_SP_pt (SP pt : ℝ) : Except PyError ℝ := do
  let x := SP
  let y := Real.log ((298.15 - pt) / (273.15 + pt))
  let a := Nesol_a
  let b := Nesol_b
  return 1e3 * Real.exp ((← pyIndex a 0) + y * ((← pyIndex a 1) +
    (← pyIndex a 2) * y) + x * ((← pyIndex b 0) + (← pyIndex b 1) * y))

/-- Coefficient list a of Arsol_SP_pt, Hamme and Emerson (2004). -/
def Arsol_a : List ℝ := [2.79150, 3.17609, 4.13116, 4.90379]

/-- Coefficient list b of Arsol_SP_pt. -/
def Arsol_b : List ℝ := [-6.96233e-3, -7.66670e-3, -1.16888e-2]

/-- Arsol_SP_pt of sol.py: argon solubility, log-temperature family,
ITS-90 temperature used directly. -/
def Arsol_SP_pt (SP pt : ℝ) : Except PyError ℝ := do
  let x := SP
  let y := Real.log ((298.15 - pt) / (273.15 + pt))
  let a := Arsol_a
  let b := Arsol_b
  return Real.exp ((← pyIndex a 0) + y * ((← pyIndex a 1) + y *
    ((← pyIndex a 2) + (← pyIndex a 3) * y)) + x * ((← pyIndex b 0) + y *
    ((← pyIndex b 1) + (← pyIndex b 2) * y)))

/-- Coefficient list a of Krsol_SP_pt, Weiss and Kyser (1978). -/
def Krsol_a : List ℝ := [-112.6840, 153.5817, 74.4690, -10.0189]

/-- Coefficient list b of Krsol_SP_pt. -/
def Krsol_b : List ℝ := [-0.011213, -0.001844, 0.0011201]

/-- Krsol_SP_pt of sol.py: krypton solubility, inverse-temperature Weiss
family, converted from mL per kg to umol per kg. -/
def Krsol_SP_pt (SP pt : ℝ) : Except PyError ℝ := do
  let x := SP
  let pt68 := pt * 1.00024
  let y := pt68 + 273.15
  let y_100 := y * 1e-2
  let a := Krsol_a
  let b := Krsol_b
  let Krsol_mL := Real.exp ((← pyIndex a 0) + (← pyIndex a 1) * 100 / y +
    (← pyIndex a 2) * Real.log y_100 + (← pyIndex a 3) * y_100 +
    x * ((← pyIndex b 0) + y_100 * ((← pyIndex b 1) + (← pyIndex b 2) * y_100)))
  return Krsol_mL * 4.474052731185490e1

/-- Coefficient list a of N2sol_SP_pt, Hamme and Emerson (2004). -/
def N2sol_a : List ℝ := [6.42931, 2.92704, 4.32531, 4.69149]

/-- Coefficient list b of N2sol_SP_pt. -/
def N2sol_b : List ℝ := [-7.44129e-3, -8.02566e-3, -1.46775e-2]

/-- N2sol_SP_pt of sol.py: nitrogen solubility, log-temperature family,
ITS-90 temperature used directly. -/
def N2sol_SP_pt (SP pt : ℝ) : Except PyError ℝ := do
  let x := SP
  let y := Real.log ((298.15 - pt) / (273.15 + pt))
  let a := N2sol_a
  let b := N2sol_b
  return Real.exp ((← pyIndex a 0) + y * ((← pyIndex a 1) + y *
    ((← pyIndex a 2) + (← pyIndex a 3) * y)) + x * ((← pyIndex b 0) + y *
    ((← pyIndex b 1) + (← pyIndex b 2) * y)))

/-- N2Osol_SP_pt of sol.py: nitrous oxide solubility.  The source assigns
the mol per L coefficient lists first and immediately shadows them with
the mol per kg lists, as here.  In the second b list the source writes
[-0.060361 + 0.033765, -0.0051862]: a plus sign stands where Table 2 of
Weiss and Price (1980) has a separate second coefficient, so the list has
two elements while the formula below subscripts b[2]. -/
def N2Osol_SP_pt (SP pt : ℝ) : Except PyError ℝ := do
  let x := SP
  let pt68 := pt * 1.00024
  let y := pt68 + 273.15
  let y_100 := y * 1e-2
  let a : List ℝ := [-165.8806, 222.8743, 92.0792, -1.48425]
  let b : List ℝ := [-0.056235, 0.031619, -0.0048472]
  let a : List ℝ := [-168.2459, 226.0894, 93.2817, -1.48693]
  let b : List ℝ := [-0.060361 + 0.033765, -0.0051862]
  let m : List ℝ := [24.4543, 67.4509, 4.8489, 0.000544]
  let ph2odP := Real.exp ((← pyIndex m 0) - (← pyIndex m 1) * 100 / y -
    (← pyIndex m 2) * Real.log y_100 - (← pyIndex m 3) * x)
  return (Real.exp ((← pyIndex a 0) + (← pyIndex a 1) * 100 / y +
    (← pyIndex a 2) * Real.log y_100 + (← pyIndex a 3) * y_100 ^ 2 +
    x * ((← pyIndex b 0) + y_100 * ((← pyIndex b 1) + (← pyIndex b 2) * y_100)))) /
    (1 - ph2odP)

/-- Coefficient list a of CO2sol_SP_pt, Weiss and Price (1980) Table 6. -/
def CO2sol_a : List ℝ := [-162.8301, 218.2968, 90.9241, -1.47696]

/-- Coefficient list b of CO2sol_SP_pt. -/
def CO2sol_b : List ℝ := [0.025695, -0.025225, 0.0049867]

/-- CO2sol_SP_pt of sol.py: carbon dioxide solubility in mol per kg per
atm, inverse-temperature Weiss family with the squared y_100 term and no
moist-air correction. -/
def CO2sol_SP_pt (SP pt : ℝ) : Except PyError ℝ := do
  let x := SP
  let pt68 := pt * 1.00024
  let y := pt68 + 273.15
  let y_100 := y * 1e-2
  let a := CO2sol_a
  let b := CO2sol_b
  return Real.exp ((← pyIndex a 0) + (← pyIndex a 1) * 100 / y +
    (← pyIndex a 2) * Real.log y_100 + (← pyIndex a 3) * y_100 ^ 2 +
    x * ((← pyIndex b 0) + (← pyIndex b 1) * y_100 + (← pyIndex b 2) * y_100 ^ 2))

/-- The export list of sol.py, its module attribute named all, verbatim. -/
def sol_all : List String :=
  ["O2sol_SP_pt", "Hesol_SP_pt", "Nesol_SP_pt", "Arsol_SP_pt",
   "Krsol_SP_pt", "N2sol_SP_pt", "N2Osol_SP_pt", "O2sol", "Hesol",
   "Nesol", "Arsol", "Krsol", "N2sol", "N2Osol"]

/-- The names of the functions defined at top level in sol.py, in source
order. -/
def sol_module_defs : List String :=
  ["O2sol_SP_pt", "O2sol", "Hesol_SP_pt", "Hesol", "Nesol_SP_pt", "Nesol",
   "Arsol_SP_pt", "Arsol", "Krsol_SP_pt", "Krsol", "N2sol_SP_pt", "N2sol",
   "N2Osol_SP_pt", "N2Osol", "CO2sol_SP_pt", "CO2sol"]

/-- Claim C2, failing input.  The claim says every supported solubility
gas yields a strictly positive finite value without an exception on
SP in [0, 40], pt in [-2, 40]; at the in-domain input SP = 35, pt = 10 the
N2O solubility call instead raises IndexError, because the second b list
has two elements (a plus sign where a comma belongs) while the formula
subscripts b[2]. -/
theorem N2Osol_crashes_at_35_10 :
    N2Osol_SP_pt 35 10 = Except.error PyError.IndexError := rfl

/-- Claim C3.  The claim states N2O solubility evaluates the Weiss
formula with the three-coefficient salinity term of the Weiss and Price
(1980) mol per kg per atm fit; instead the call raises IndexError for
every input, since the b list holds two elements and the formula reads
b[2]. -/
theorem N2Osol_never_evaluates (SP pt : ℝ) :
    N2Osol_SP_pt SP pt = Except.error PyError.IndexError := rfl

/-- Claim C7, counterexample.  The claim says the Ne fit has a 4-term a
polynomial and 3-term b polynomial like Ar and N2; the Ne coefficient
lists of the source have 3 and 2 entries. -/
theorem Nesol_shape_claim_false :
    ¬(Nesol_a.length = 4 ∧ Nesol_b.length = 3) := by
  simp [Nesol_a, Nesol_b]

/-- Claim C7, amended.  Ne solubility is evaluated with a 3-term a
polynomial (quadratic in y) and a 2-term b salinity polynomial (linear in
y), where y = ln((298.15 - pt)/(273.15 + pt)); Ar and N2 use the larger
4-term a and 3-term b shapes. -/
theorem Nesol_shape :
    Nesol_a.length = 3 ∧ Nesol_b.length = 2 ∧
    Arsol_a.length = 4 ∧ Arsol_b.length = 3 ∧
    N2sol_a.length = 4 ∧ N2sol_b.length = 3 ∧
    (∀ SP pt : ℝ, Nesol_SP_pt SP pt =
      Except.ok (1e3 * Real.exp (polyHorner Nesol_a (ylog pt) +
        SP * polyHorner Nesol_b (ylog pt)))) := by
  refine ⟨rfl, rfl, rfl, rfl, rfl, rfl, fun SP pt => ?_⟩
  show Except.ok _ = Except.ok _
  rw [Except.ok.injEq]
  congr 1
  simp only [polyHorner, Nesol_a, Nesol_b, List.foldr, ylog]
  ring_nf

/-- Claim C8.  In the log-temperature family, O2 converts the temperature
to the 1968 scale before forming y while Ne, Ar and N2 feed the ITS-90
temperature into y directly, and the two choices genuinely differ: at
pt = 20 the two log variables are distinct. -/
theorem sol_temp_scale_asymmetry :
    (∀ SP pt : ℝ, O2sol_SP_pt SP pt =
      Except.ok (Real.exp (5.80871 + ylog (pt * 1.00024) * (3.20291 +
        ylog (pt * 1.00024) * (4.17887 + ylog (pt * 1.00024) * (5.10006 +
        ylog (pt * 1.00024) * (-9.86643e-2 + 3.80369 * ylog (pt * 1.00024))))) +
        SP * (-7.01577e-3 + ylog (pt * 1.00024) * (-7.70028e-3 +
        ylog (pt * 1.00024) * (-1.13864e-2 + -9.51519e-3 * ylog (pt * 1.00024))) +
        -2.75915e-7 * SP)))) ∧
    (∀ SP pt : ℝ, Nesol_SP_pt SP pt =
      Except.ok (1e3 * Real.exp (2.18156 + ylog pt * (1.29108 +
        2.12504 * ylog pt) + SP * (-5.94737e-3 + -5.13896e-3 * ylog pt)))) ∧
    (∀ SP pt : ℝ, Arsol_SP_pt SP pt =
      Except.ok (Real.exp (2.79150 + ylog pt * (3.17609 + ylog pt *
        (4.13116 + 4.90379 * ylog pt)) + SP * (-6.96233e-3 + ylog pt *
        (-7.66670e-3 + -1.16888e-2 * ylog pt))))) ∧
    (∀ SP pt : ℝ, N2sol_SP_pt SP pt =
      Except.ok (Real.exp (6.42931 + ylog pt * (2.92704 + ylog pt *
        (4.32531 + 4.69149 * ylog pt)) + SP * (-7.44129e-3 + ylog pt *
        (-8.02566e-3 + -1.46775e-2 * ylog pt))))) ∧
    ylog (20 * 1.00024) ≠ ylog 20 := by
  refine ⟨fun SP pt => rfl, fun SP pt => rfl, fun SP pt => rfl,
    fun SP pt => rfl, ?_⟩
  have hpos : (0 : ℝ) < (298.15 - 20 * 1.00024) / (273.15 + 20 * 1.00024) :=
    div_pos (by norm_num) (by norm_num)
  have hlt : ((298.15 - 20 * 1.00024) / (273.15 + 20 * 1.00024) : ℝ) <
      ((298.15 - 20) / (273.15 + 20) : ℝ) := by
    rw [div_lt_div_iff₀ (by norm_num) (by norm_num)]
    norm_num
  exact ne_of_lt (Real.log_lt_log hpos hlt)

/-- Claim C10.  The export list of sol.py names exactly the fourteen
practical-salinity and Absolute-Salinity solubility functions of the seven
gases O2, He, Ne, Ar, Kr, N2 and N2O; the CO2 pair is defined in the
module yet missing from the export list. -/
theorem sol_export_exact :
    sol_all =
      ((["O2", "He", "Ne", "Ar", "Kr", "N2", "N2O"].map
        (fun gs => gs ++ "sol_SP_pt")) ++
       (["O2", "He", "Ne", "Ar", "Kr", "N2", "N2O"].map
        (fun gs => gs ++ "sol"))) ∧
    "CO2sol_SP_pt" ∈ sol_module_defs ∧ "CO2sol" ∈ sol_module_defs ∧
    "CO2sol_SP_pt" ∉ sol_all ∧ "CO2sol" ∉ sol_all := by
  exact ⟨by decide, by decide, by decide, by decide, by decide⟩

end

end Gasex
